import Mathlib

/-!
# DXGI wrapping layer: `source/WrappedDXGI.cpp`

A shallow embedding of the factory proxy (`DXGIFactory`) and the swapchain
proxy (`DXGISwapChain`).

* Every method is a function in the `Run` monad: given the history of calls
  made so far it returns its value and the list of events it emitted itself.
* Everything outside this layer (the original DXGI objects, the device that
  the application passes in, Direct3D 11, Dear ImGui, the WRL base class) is
  a field of `Env`.  Each field receives the history, so the same call may
  answer differently at different moments of a run.
* An event records a call together with the value that came back, so a trace
  says both what was asked and what was answered.
* Pointers are natural numbers, `nullptr` is `0`.  `HRESULT` is a signed
  integer, `SUCCEEDED hr` is `hr >= 0` as in `winerror.h`.
* Reference counting is followed only where the destructor releases the
  members of the swapchain proxy; allocation failure inside `Make` is not
  followed.  Objects handed back by a successful call are taken to be
  callable, as COM requires.
-/

namespace WrappedDXGI

/-! ## Basic types -/

abbrev HRESULT := Int
abbrev UINT := Nat
abbrev Ptr := Nat

def nullptr : Ptr := 0

def S_OK : HRESULT := 0

/-- The value `_HRESULT_TYPEDEF_(0x887A0001L)` read as a signed 32-bit integer. -/
def DXGI_ERROR_INVALID_CALL : HRESULT := 0x887A0001 - 0x100000000

/-- The macro `SUCCEEDED(hr)`, which is `((HRESULT)(hr)) >= 0`. -/
def SUCCEEDED (hr : HRESULT) : Bool := decide (0 ≤ hr)

/-- The macro `FAILED(hr)`, which is `((HRESULT)(hr)) < 0`. -/
def FAILED (hr : HRESULT) : Bool := decide (hr < 0)

/-- Interface identifiers.  The ones the source names through `IID_PPV_ARGS`
or `ComPtr::As` are constructors of their own; any other GUID is `other`. -/
inductive IID where
  | IUnknown
  | IWrapperObject
  | ID3D11Device
  | ID3D11Resource
  | other (guid : Nat)
deriving DecidableEq, Repr

/-- The factory proxy: its own address and its two data members. -/
structure DXGIFactory where
  this : Ptr
  m_dxgiModule : Ptr
  m_orig : Ptr
deriving DecidableEq, Repr

/-- The swapchain proxy: the data members set by the constructor's
initialiser list. -/
structure DXGISwapChain where
  m_factory : DXGIFactory
  m_device : Ptr
  m_orig : Ptr
deriving DecidableEq, Repr

/-- The part of `ImDrawData` that `Present` reads. -/
structure ImDrawData where
  addr : Ptr
  TotalVtxCount : Int
deriving DecidableEq, Repr

/-- The data members of `DXGISwapChain`. -/
inductive Member where
  | m_factory
  | m_device
  | m_orig
deriving DecidableEq, Repr

/-- Calls that leave this layer, and stores through the caller's output
pointer.  A call that returns something carries the returned value last. -/
inductive Event where
  /-- The call `obj->QueryInterface(riid, out)` on an object outside this layer. -/
  | QueryInterface (obj : Ptr) (riid : IID) (ret : HRESULT × Ptr)
  /-- The call `__super::QueryInterface` inside the factory proxy. -/
  | Factory_super_QueryInterface (self : DXGIFactory) (riid : IID) (ret : HRESULT × Ptr)
  /-- The call `__super::QueryInterface` inside the swapchain proxy. -/
  | SwapChain_super_QueryInterface (self : DXGISwapChain) (riid : IID) (ret : HRESULT × Ptr)
  | GetUnderlyingInterface (wrapper : Ptr) (riid : IID) (ret : HRESULT × Ptr)
  | Factory_GetParent (orig : Ptr) (riid : IID) (ret : HRESULT × Ptr)
  | Factory_CreateSwapChain (orig : Ptr) (pDevice : Ptr) (pDesc : Ptr) (ret : HRESULT × Ptr)
  /-- The store `*ppSwapChain = value`; `none` is `nullptr`. -/
  | Store_ppSwapChain (ppSwapChain : Ptr) (value : Option DXGISwapChain)
  | Make_DXGISwapChain (swapChain : Ptr) (factory : DXGIFactory) (device : Ptr) (desc : Ptr)
  | IMGUI_CHECKVERSION
  | ImGui_CreateContext
  | ImGui_GetIO_
  | ImGui_StyleColorsDark
  | ImGui_ImplWin32_Init (hwnd : Ptr)
  | GetImmediateContext (d3dDevice : Ptr) (ret : Ptr)
  | ImGui_ImplDX11_Init (d3dDevice : Ptr) (d3dDeviceContext : Ptr)
  | ImGui_ImplDX11_NewFrame
  | ImGui_ImplWin32_NewFrame
  | ImGui_NewFrame
  | ImGui_ShowDemoWindow
  | ImGui_Render
  | ImGui_GetDrawData (ret : ImDrawData)
  | SwapChain_GetBuffer (orig : Ptr) (Buffer : UINT) (riid : IID) (ret : HRESULT × Ptr)
  | CreateRenderTargetView (d3dDevice : Ptr) (renderTarget : Ptr) (ret : HRESULT × Ptr)
  | OMSetRenderTargets (d3dDeviceContext : Ptr) (NumViews : UINT) (rtv : Ptr)
  | ImGui_ImplDX11_RenderDrawData (drawData : ImDrawData)
  | SwapChain_Present (orig : Ptr) (SyncInterval : UINT) (Flags : UINT) (ret : HRESULT)
  | ImGui_ImplDX11_Shutdown
  | ImGui_ImplWin32_Shutdown
  | ImGui_DestroyContext
  /-- The destructor of the `ComPtr` member `m` dropping its reference to `p`. -/
  | ComPtr_Release (m : Member) (p : Ptr)
deriving DecidableEq, Repr

/-- What the collaborators answer.  The first argument of every field is the
history of events up to the call. -/
structure Env where
  /-- The method `IUnknown::QueryInterface` of an object outside this layer. -/
  QueryInterface : List Event → Ptr → IID → HRESULT × Ptr
  /-- The local lookup `RuntimeClass::QueryInterface` of `DXGIFactory`. -/
  Factory_super_QueryInterface : List Event → DXGIFactory → IID → HRESULT × Ptr
  /-- The local lookup `RuntimeClass::QueryInterface` of `DXGISwapChain`. -/
  SwapChain_super_QueryInterface : List Event → DXGISwapChain → IID → HRESULT × Ptr
  /-- The method `IWrapperObject::GetUnderlyingInterface` of a wrapper passed in. -/
  GetUnderlyingInterface : List Event → Ptr → IID → HRESULT × Ptr
  /-- The method `IDXGIFactory::GetParent` of the original factory. -/
  Factory_GetParent : List Event → Ptr → IID → HRESULT × Ptr
  /-- The method `IDXGIFactory::CreateSwapChain` of the original factory. -/
  Factory_CreateSwapChain : List Event → Ptr → Ptr → Ptr → HRESULT × Ptr
  /-- The field `OutputWindow` of the description at the given address. -/
  OutputWindow : List Event → Ptr → Ptr
  /-- The method `ID3D11Device::GetImmediateContext`. -/
  GetImmediateContext : List Event → Ptr → Ptr
  /-- The function `ImGui::GetDrawData`. -/
  ImGui_GetDrawData : List Event → ImDrawData
  /-- The method `IDXGISwapChain::GetBuffer` of the original swapchain. -/
  SwapChain_GetBuffer : List Event → Ptr → UINT → IID → HRESULT × Ptr
  /-- The method `ID3D11Device::CreateRenderTargetView`. -/
  CreateRenderTargetView : List Event → Ptr → Ptr → HRESULT × Ptr
  /-- The method `IDXGISwapChain::Present` of the original swapchain. -/
  SwapChain_Present : List Event → Ptr → UINT → UINT → HRESULT

/-! ## The trace monad -/

/-- A computation: from the history so far to a value and the events it
emitted, oldest first. -/
def Run (α : Type) : Type := List Event → α × List Event

namespace Run

def ret {α : Type} (a : α) : Run α := fun _ => (a, [])

def andThen {α β : Type} (m : Run α) (f : α → Run β) : Run β := fun h =>
  let r := m h
  let s := f r.1 (h ++ r.2)
  (s.1, r.2 ++ s.2)

instance : Monad Run where
  pure := ret
  bind := andThen

/-- An effect without a result. -/
def emit (e : Event) : Run Unit := fun _ => ((), [e])

/-- A call whose result comes from a collaborator; the event keeps the result. -/
def call {α : Type} (e : α → Event) (answer : List Event → α) : Run α := fun h =>
  (answer h, [e (answer h)])

/-- A read that leaves no event. -/
def ask {α : Type} (answer : List Event → α) : Run α := fun h => (answer h, [])

end Run

open Run

/-! ## `DXGIFactory` -/

/-- Source lines 42-50. -/
def DXGIFactory.QueryInterface (E : Env) (self : DXGIFactory) (riid : IID) :
    Run (HRESULT × Ptr) := do
  let mut r ← call (Event.Factory_super_QueryInterface self riid)
    (fun h => E.Factory_super_QueryInterface h self riid)
  if FAILED r.1 then
    r ← call (Event.QueryInterface self.m_orig riid)
      (fun h => E.QueryInterface h self.m_orig riid)
  return r

/-- Source lines 67-70. -/
def DXGIFactory.GetParent (E : Env) (self : DXGIFactory) (riid : IID) :
    Run (HRESULT × Ptr) :=
  call (Event.Factory_GetParent self.m_orig riid)
    (fun h => E.Factory_GetParent h self.m_orig riid)

/-- Source lines 125-128: `ComPtr::CopyTo(riid, out)` is
`m_orig->QueryInterface(riid, out)`. -/
def DXGIFactory.GetUnderlyingInterface (E : Env) (self : DXGIFactory) (riid : IID) :
    Run (HRESULT × Ptr) :=
  call (Event.QueryInterface self.m_orig riid)
    (fun h => E.QueryInterface h self.m_orig riid)

/-! ## `DXGISwapChain` -/

/-- Source lines 132-159, the constructor. -/
def DXGISwapChain.ctor (E : Env) (swapChain : Ptr) (factory : DXGIFactory)
    (device : Ptr) (desc : Ptr) : Run DXGISwapChain := do
  let self : DXGISwapChain :=
    { m_factory := factory, m_device := device, m_orig := swapChain }
  emit Event.IMGUI_CHECKVERSION
  emit Event.ImGui_CreateContext
  emit Event.ImGui_GetIO_
  emit Event.ImGui_StyleColorsDark
  let hwnd ← ask (fun h => E.OutputWindow h desc)
  emit (Event.ImGui_ImplWin32_Init hwnd)
  let d3dDevice ← call (Event.QueryInterface self.m_device IID.ID3D11Device)
    (fun h => E.QueryInterface h self.m_device IID.ID3D11Device)
  if SUCCEEDED d3dDevice.1 then
    let d3dDeviceContext ← call (Event.GetImmediateContext d3dDevice.2)
      (fun h => E.GetImmediateContext h d3dDevice.2)
    emit (Event.ImGui_ImplDX11_Init d3dDevice.2 d3dDeviceContext)
  emit Event.ImGui_ImplDX11_NewFrame
  emit Event.ImGui_ImplWin32_NewFrame
  emit Event.ImGui_NewFrame
  return self

/-- The call `Make<DXGISwapChain>(...)`: allocation, then the constructor. -/
def Make_DXGISwapChain (E : Env) (swapChain : Ptr) (factory : DXGIFactory)
    (device : Ptr) (desc : Ptr) : Run DXGISwapChain := do
  emit (Event.Make_DXGISwapChain swapChain factory device desc)
  DXGISwapChain.ctor E swapChain factory device desc

/-- The destructor of one `ComPtr` member: it drops the reference the
member holds. -/
def DXGISwapChain.release (self : DXGISwapChain) : Member → Event
  | Member.m_factory => Event.ComPtr_Release Member.m_factory self.m_factory.this
  | Member.m_device => Event.ComPtr_Release Member.m_device self.m_device
  | Member.m_orig => Event.ComPtr_Release Member.m_orig self.m_orig

/-- Source lines 161-166, the destructor: its body, then the `ComPtr` members
in the reverse of their declaration order.  The declaration order is in the
class definition, which is given as `memberOrder`. -/
def DXGISwapChain.dtor (memberOrder : List Member) (self : DXGISwapChain) : Run Unit := do
  emit Event.ImGui_ImplDX11_Shutdown
  emit Event.ImGui_ImplWin32_Shutdown
  emit Event.ImGui_DestroyContext
  fun _ => ((), memberOrder.reverse.map self.release)

/-- Source lines 168-176. -/
def DXGISwapChain.QueryInterface (E : Env) (self : DXGISwapChain) (riid : IID) :
    Run (HRESULT × Ptr) := do
  let mut r ← call (Event.SwapChain_super_QueryInterface self riid)
    (fun h => E.SwapChain_super_QueryInterface h self riid)
  if FAILED r.1 then
    r ← call (Event.QueryInterface self.m_orig riid)
      (fun h => E.QueryInterface h self.m_orig riid)
  return r

/-- Source lines 193-196: `m_factory.CopyTo(riid, out)` is
`m_factory->QueryInterface(riid, out)`, and `m_factory` is a `DXGIFactory`. -/
def DXGISwapChain.GetParent (E : Env) (self : DXGISwapChain) (riid : IID) :
    Run (HRESULT × Ptr) :=
  DXGIFactory.QueryInterface E self.m_factory riid

/-- Source lines 198-201: `m_device.CopyTo(riid, out)` is
`m_device->QueryInterface(riid, out)`. -/
def DXGISwapChain.GetDevice (E : Env) (self : DXGISwapChain) (riid : IID) :
    Run (HRESULT × Ptr) :=
  call (Event.QueryInterface self.m_device riid)
    (fun h => E.QueryInterface h self.m_device riid)

/-- Source lines 244-247. -/
def DXGISwapChain.GetBuffer (E : Env) (self : DXGISwapChain) (Buffer : UINT) (riid : IID) :
    Run (HRESULT × Ptr) :=
  call (Event.SwapChain_GetBuffer self.m_orig Buffer riid)
    (fun h => E.SwapChain_GetBuffer h self.m_orig Buffer riid)

/-- Source lines 203-242. -/
def DXGISwapChain.Present (E : Env) (self : DXGISwapChain) (SyncInterval Flags : UINT) :
    Run HRESULT := do
  emit Event.ImGui_ShowDemoWindow
  emit Event.ImGui_Render
  let drawData ← call Event.ImGui_GetDrawData (fun h => E.ImGui_GetDrawData h)
  if drawData.TotalVtxCount > 0 then
    let d3dDevice ← call (Event.QueryInterface self.m_device IID.ID3D11Device)
      (fun h => E.QueryInterface h self.m_device IID.ID3D11Device)
    if SUCCEEDED d3dDevice.1 then
      let renderTarget ← DXGISwapChain.GetBuffer E self 0 IID.ID3D11Resource
      if SUCCEEDED renderTarget.1 then
        let rtv ← call (Event.CreateRenderTargetView d3dDevice.2 renderTarget.2)
          (fun h => E.CreateRenderTargetView h d3dDevice.2 renderTarget.2)
        if SUCCEEDED rtv.1 then
          let d3dDeviceContext ← call (Event.GetImmediateContext d3dDevice.2)
            (fun h => E.GetImmediateContext h d3dDevice.2)
          emit (Event.OMSetRenderTargets d3dDeviceContext 1 rtv.2)
  emit (Event.ImGui_ImplDX11_RenderDrawData drawData)
  let hr ← call (Event.SwapChain_Present self.m_orig SyncInterval Flags)
    (fun h => E.SwapChain_Present h self.m_orig SyncInterval Flags)
  emit Event.ImGui_ImplDX11_NewFrame
  emit Event.ImGui_ImplWin32_NewFrame
  emit Event.ImGui_NewFrame
  return hr

/-! ## `DXGIFactory::CreateSwapChain` -/

/-- Source lines 87-118. -/
def DXGIFactory.CreateSwapChain (E : Env) (self : DXGIFactory)
    (pDevice pDesc ppSwapChain : Ptr) : Run HRESULT := do
  if pDevice = nullptr ∨ pDesc = nullptr ∨ ppSwapChain = nullptr then
    return DXGI_ERROR_INVALID_CALL
  emit (Event.Store_ppSwapChain ppSwapChain none)
  let mut swapChain : Ptr := nullptr
  let mut hr : HRESULT := S_OK
  let mut created : Bool := false
  let wrapper ← call (Event.QueryInterface pDevice IID.IWrapperObject)
    (fun h => E.QueryInterface h pDevice IID.IWrapperObject)
  if SUCCEEDED wrapper.1 then
    let underlyingInterface ← call (Event.GetUnderlyingInterface wrapper.2 IID.IUnknown)
      (fun h => E.GetUnderlyingInterface h wrapper.2 IID.IUnknown)
    if SUCCEEDED underlyingInterface.1 then
      let r ← call (Event.Factory_CreateSwapChain self.m_orig underlyingInterface.2 pDesc)
        (fun h => E.Factory_CreateSwapChain h self.m_orig underlyingInterface.2 pDesc)
      hr := r.1
      swapChain := r.2
      created := true
  if !created then
    let r ← call (Event.Factory_CreateSwapChain self.m_orig pDevice pDesc)
      (fun h => E.Factory_CreateSwapChain h self.m_orig pDevice pDesc)
    hr := r.1
    swapChain := r.2
  if SUCCEEDED hr then
    let wrappedSwapChain ← Make_DXGISwapChain E swapChain self pDevice pDesc
    emit (Event.Store_ppSwapChain ppSwapChain (some wrappedSwapChain))
  return hr

/-! ## Drivers: a swapchain proxy in use -/

/-- A sequence of `Present` calls on one proxy, each with its own
`SyncInterval` and `Flags`; the result codes come back in call order. -/
def presentCalls (E : Env) (self : DXGISwapChain) : List (UINT × UINT) → Run (List HRESULT)
  | [] => pure []
  | c :: rest => do
    let hr ← DXGISwapChain.Present E self c.1 c.2
    let hrs ← presentCalls E self rest
    return hr :: hrs

/-- Construction followed by a sequence of `Present` calls. -/
def constructAndPresent (E : Env) (swapChain : Ptr) (factory : DXGIFactory)
    (device : Ptr) (desc : Ptr) (calls : List (UINT × UINT)) : Run (List HRESULT) := do
  let self ← DXGISwapChain.ctor E swapChain factory device desc
  presentCalls E self calls

/-- The whole life of a swapchain proxy: construction, a sequence of
`Present` calls, destruction. -/
def lifetime (E : Env) (memberOrder : List Member) (swapChain : Ptr) (factory : DXGIFactory)
    (device : Ptr) (desc : Ptr) (calls : List (UINT × UINT)) : Run (List HRESULT) := do
  let self ← DXGISwapChain.ctor E swapChain factory device desc
  let hrs ← presentCalls E self calls
  DXGISwapChain.dtor memberOrder self
  return hrs

/-! ## Reading a trace -/

def Event.isFactoryCreateSwapChain : Event → Bool
  | Event.Factory_CreateSwapChain _ _ _ _ => true
  | _ => false

def Event.isMake : Event → Bool
  | Event.Make_DXGISwapChain _ _ _ _ => true
  | _ => false

/-- Calls into Dear ImGui and its two backends. -/
def Event.isOverlay : Event → Bool
  | Event.IMGUI_CHECKVERSION => true
  | Event.ImGui_CreateContext => true
  | Event.ImGui_GetIO_ => true
  | Event.ImGui_StyleColorsDark => true
  | Event.ImGui_ImplWin32_Init _ => true
  | Event.ImGui_ImplDX11_Init _ _ => true
  | Event.ImGui_ImplDX11_NewFrame => true
  | Event.ImGui_ImplWin32_NewFrame => true
  | Event.ImGui_NewFrame => true
  | Event.ImGui_ShowDemoWindow => true
  | Event.ImGui_Render => true
  | Event.ImGui_GetDrawData _ => true
  | Event.ImGui_ImplDX11_RenderDrawData _ => true
  | Event.ImGui_ImplDX11_Shutdown => true
  | Event.ImGui_ImplWin32_Shutdown => true
  | Event.ImGui_DestroyContext => true
  | _ => false

def Event.isSwapChainPresent : Event → Bool
  | Event.SwapChain_Present _ _ _ _ => true
  | _ => false

def Event.isOMSetRenderTargets : Event → Bool
  | Event.OMSetRenderTargets _ _ _ => true
  | _ => false

/-- The value an event stores through the output pointer `p`, if it is such
a store. -/
def Event.stored (p : Ptr) : Event → Option (Option DXGISwapChain)
  | Event.Store_ppSwapChain q v => if q = p then some v else none
  | _ => none

/-- The values stored through the output pointer `p`, oldest first. -/
def storedAt (p : Ptr) (trace : List Event) : List (Option DXGISwapChain) :=
  trace.filterMap (Event.stored p)

/-- The events that make up the overlay frame cycle, with the original
`Present` between them. -/
def Event.isFrameCycle : Event → Bool
  | Event.ImGui_Render => true
  | Event.SwapChain_Present _ _ _ _ => true
  | Event.ImGui_ImplDX11_NewFrame => true
  | Event.ImGui_ImplWin32_NewFrame => true
  | Event.ImGui_NewFrame => true
  | _ => false

/-- The frame-cycle events of a sequence of `Present` calls on the original
swapchain `orig`, given each call's arguments and result code. -/
def frameCycleOf (orig : Ptr) : List ((UINT × UINT) × HRESULT) → List Event
  | [] => []
  | c :: rest =>
    [Event.ImGui_Render, Event.SwapChain_Present orig c.1.1 c.1.2 c.2,
      Event.ImGui_ImplDX11_NewFrame, Event.ImGui_ImplWin32_NewFrame, Event.ImGui_NewFrame]
    ++ frameCycleOf orig rest

/-- The three steps of tearing a swapchain proxy down that the destruction
order speaks of. -/
def Event.isTeardown : Event → Bool
  | Event.ImGui_ImplDX11_Shutdown => true
  | Event.ImGui_ImplWin32_Shutdown => true
  | Event.ComPtr_Release Member.m_orig _ => true
  | _ => false

/-- The overlay state of a swapchain proxy as the specification models it:
a frame open for draw commands, or the frame finalized by `ImGui::Render`;
`noFrame` is the state before the constructor has begun the first frame. -/
inductive FrameState where
  | noFrame
  | frameOpen
  | frameFinalized
deriving DecidableEq, Repr

/-- One step of the frame cycle.  `ImGui::Render` finalizes an open frame,
`ImGui::NewFrame` opens one unless a frame is open already; `none` is a
finalize without an open frame or a new frame on top of an open one. -/
def frameStep : FrameState → Event → Option FrameState
  | FrameState.frameOpen, Event.ImGui_Render => some FrameState.frameFinalized
  | _, Event.ImGui_Render => none
  | FrameState.frameOpen, Event.ImGui_NewFrame => none
  | _, Event.ImGui_NewFrame => some FrameState.frameOpen
  | s, _ => some s

/-- The frame cycle run over a trace. -/
def frameRun (s : FrameState) : List Event → Option FrameState
  | [] => some s
  | e :: es =>
    match frameStep s e with
    | some s2 => frameRun s2 es
    | none => none

/-! ## What the collaborators answer during `CreateSwapChain` -/

/-- The answer to the capability probe `pDevice->QueryInterface` for
`IWrapperObject`, made right after the output pointer is cleared. -/
def CreateSwapChain_probe (E : Env) (pDevice ppSwapChain : Ptr) (h : List Event) :
    HRESULT × Ptr :=
  E.QueryInterface (h ++ [Event.Store_ppSwapChain ppSwapChain none]) pDevice IID.IWrapperObject

/-- The answer of `GetUnderlyingInterface` on the wrapper the probe gave. -/
def CreateSwapChain_unwrap (E : Env) (pDevice ppSwapChain : Ptr) (h : List Event) :
    HRESULT × Ptr :=
  E.GetUnderlyingInterface
    (h ++ [Event.Store_ppSwapChain ppSwapChain none,
      Event.QueryInterface pDevice IID.IWrapperObject (CreateSwapChain_probe E pDevice ppSwapChain h)])
    (CreateSwapChain_probe E pDevice ppSwapChain h).2 IID.IUnknown

/-- The events of `CreateSwapChain` up to the call of the original factory. -/
def CreateSwapChain_before (E : Env) (pDevice ppSwapChain : Ptr) (h : List Event) :
    List Event :=
  [Event.Store_ppSwapChain ppSwapChain none,
    Event.QueryInterface pDevice IID.IWrapperObject (CreateSwapChain_probe E pDevice ppSwapChain h)]
  ++ if SUCCEEDED (CreateSwapChain_probe E pDevice ppSwapChain h).1 then
      [Event.GetUnderlyingInterface (CreateSwapChain_probe E pDevice ppSwapChain h).2 IID.IUnknown
        (CreateSwapChain_unwrap E pDevice ppSwapChain h)]
    else []

/-- The device the original factory is given. -/
def CreateSwapChain_device (E : Env) (pDevice ppSwapChain : Ptr) (h : List Event) : Ptr :=
  if SUCCEEDED (CreateSwapChain_probe E pDevice ppSwapChain h).1
      ∧ SUCCEEDED (CreateSwapChain_unwrap E pDevice ppSwapChain h).1 then
    (CreateSwapChain_unwrap E pDevice ppSwapChain h).2
  else pDevice

/-- The answer of the original factory's `CreateSwapChain`. -/
def CreateSwapChain_original (E : Env) (self : DXGIFactory) (pDevice pDesc ppSwapChain : Ptr)
    (h : List Event) : HRESULT × Ptr :=
  E.Factory_CreateSwapChain (h ++ CreateSwapChain_before E pDevice ppSwapChain h) self.m_orig
    (CreateSwapChain_device E pDevice ppSwapChain h) pDesc

/-! ## What the collaborators answer during `Present` -/

/-- The draw data `Present` gets from `ImGui::GetDrawData`. -/
def Present_drawData (E : Env) (h : List Event) : ImDrawData :=
  E.ImGui_GetDrawData (h ++ [Event.ImGui_ShowDemoWindow, Event.ImGui_Render])

/-- The events of `Present` up to and including `ImGui::GetDrawData`. -/
def Present_begin (E : Env) (h : List Event) : List Event :=
  [Event.ImGui_ShowDemoWindow, Event.ImGui_Render, Event.ImGui_GetDrawData (Present_drawData E h)]

/-- The events of the render-target stage of `Present` (source lines
211-230), which runs after `Present_begin`. -/
def Present_stage (E : Env) (self : DXGISwapChain) (h : List Event) : List Event :=
  let h0 := h ++ Present_begin E h
  if (Present_drawData E h).TotalVtxCount > 0 then
    let d3dDevice := E.QueryInterface h0 self.m_device IID.ID3D11Device
    let e1 := Event.QueryInterface self.m_device IID.ID3D11Device d3dDevice
    if SUCCEEDED d3dDevice.1 then
      let renderTarget := E.SwapChain_GetBuffer (h0 ++ [e1]) self.m_orig 0 IID.ID3D11Resource
      let e2 := Event.SwapChain_GetBuffer self.m_orig 0 IID.ID3D11Resource renderTarget
      if SUCCEEDED renderTarget.1 then
        let rtv := E.CreateRenderTargetView (h0 ++ [e1, e2]) d3dDevice.2 renderTarget.2
        let e3 := Event.CreateRenderTargetView d3dDevice.2 renderTarget.2 rtv
        if SUCCEEDED rtv.1 then
          let d3dDeviceContext := E.GetImmediateContext (h0 ++ [e1, e2, e3]) d3dDevice.2
          [e1, e2, e3, Event.GetImmediateContext d3dDevice.2 d3dDeviceContext,
            Event.OMSetRenderTargets d3dDeviceContext 1 rtv.2]
        else [e1, e2, e3]
      else [e1, e2]
    else [e1]
  else []

/-- The answer of the original swapchain's `Present`. -/
def Present_original (E : Env) (self : DXGISwapChain) (SyncInterval Flags : UINT)
    (h : List Event) : HRESULT :=
  E.SwapChain_Present
    (h ++ Present_begin E h ++ Present_stage E self h ++
      [Event.ImGui_ImplDX11_RenderDrawData (Present_drawData E h)])
    self.m_orig SyncInterval Flags

/-- The events of `Present` from the submission of the draw data on. -/
def Present_end (E : Env) (self : DXGISwapChain) (SyncInterval Flags : UINT)
    (h : List Event) : List Event :=
  [Event.ImGui_ImplDX11_RenderDrawData (Present_drawData E h),
    Event.SwapChain_Present self.m_orig SyncInterval Flags
      (Present_original E self SyncInterval Flags h),
    Event.ImGui_ImplDX11_NewFrame, Event.ImGui_ImplWin32_NewFrame, Event.ImGui_NewFrame]

/-! ## Concrete collaborators, for running the model -/

/-- The value `E_NOINTERFACE`, `0x80004002` read as a signed 32-bit integer. -/
def E_NOINTERFACE : HRESULT := 0x80004002 - 0x100000000

/-- The value `E_FAIL`, `0x80004005` read as a signed 32-bit integer. -/
def E_FAIL : HRESULT := 0x80004005 - 0x100000000

/-- Collaborators in which a plain Direct3D 11 device is passed in: the
device has no `IWrapperObject`, every other query on an outside object
succeeds with that object, the proxies implement `IUnknown` only, the
original factory creates swapchain `200`, each frame has `vtx` vertices,
`GetBuffer` answers `buf` and the original `Present` answers `present`. -/
def plainEnv (vtx : Int) (buf : HRESULT × Ptr) (present : HRESULT) : Env where
  QueryInterface := fun _ obj riid =>
    if riid = IID.IWrapperObject then (E_NOINTERFACE, nullptr) else (S_OK, obj)
  Factory_super_QueryInterface := fun _ self riid =>
    if riid = IID.IUnknown then (S_OK, self.this) else (E_NOINTERFACE, nullptr)
  SwapChain_super_QueryInterface := fun _ _ riid =>
    if riid = IID.IUnknown then (S_OK, 300) else (E_NOINTERFACE, nullptr)
  GetUnderlyingInterface := fun _ _ _ => (E_FAIL, nullptr)
  Factory_GetParent := fun _ _ _ => (S_OK, 50)
  Factory_CreateSwapChain := fun _ _ _ _ => (S_OK, 200)
  OutputWindow := fun _ _ => 7
  GetImmediateContext := fun _ _ => 60
  ImGui_GetDrawData := fun _ => { addr := 70, TotalVtxCount := vtx }
  SwapChain_GetBuffer := fun _ _ _ _ => buf
  CreateRenderTargetView := fun _ _ _ => (S_OK, 80)
  SwapChain_Present := fun _ _ _ _ => present

/-- Collaborators in which the device passed in is a wrapper: the probe for
`IWrapperObject` succeeds with wrapper `11` and the wrapper unwraps to the
original device `12`; the rest is as in `plainEnv`. -/
def wrappedEnv : Env :=
  { plainEnv 0 (S_OK, 90) S_OK with
    QueryInterface := fun _ obj riid =>
      if riid = IID.IWrapperObject then (S_OK, 11) else (S_OK, obj)
    GetUnderlyingInterface := fun _ _ _ => (S_OK, 12) }

/-- A factory proxy at address `1` around the original factory `100`. -/
def sampleFactory : DXGIFactory := { this := 1, m_dxgiModule := 2, m_orig := 100 }

/-- The swapchain proxy that `sampleFactory` makes for device `10`. -/
def sampleSwapChain : DXGISwapChain :=
  { m_factory := sampleFactory, m_device := 10, m_orig := 200 }

/-! ## Running a computation: basic facts -/

theorem Run.pure_apply {α : Type} (a : α) (h : List Event) : (pure a : Run α) h = (a, []) := rfl

theorem Run.bind_apply {α β : Type} (m : Run α) (f : α → Run β) (h : List Event) :
    (m >>= f) h = ((f (m h).1 (h ++ (m h).2)).1, (m h).2 ++ (f (m h).1 (h ++ (m h).2)).2) := rfl

theorem Run.emit_apply (e : Event) (h : List Event) : emit e h = ((), [e]) := rfl

theorem Run.call_apply {α : Type} (e : α → Event) (f : List Event → α) (h : List Event) :
    call e f h = (f h, [e (f h)]) := rfl

theorem Run.ask_apply {α : Type} (f : List Event → α) (h : List Event) :
    ask f h = (f h, []) := rfl

theorem Run.ite_apply {α : Type} (c : Prop) [Decidable c] (m n : Run α) (h : List Event) :
    (if c then m else n) h = if c then m h else n h := by
  split <;> rfl

theorem FAILED_eq_not_SUCCEEDED (hr : HRESULT) : FAILED hr = !SUCCEEDED hr := by
  unfold FAILED SUCCEEDED
  by_cases hneg : hr < 0
  · have hle : ¬ (0 ≤ hr) := Int.not_le.mpr hneg
    simp [hneg, hle]
  · have hle : 0 ≤ hr := Int.not_lt.mp hneg
    simp [hneg, hle]

theorem storedAt_append (p : Ptr) (xs ys : List Event) :
    storedAt p (xs ++ ys) = storedAt p xs ++ storedAt p ys := by
  simp only [storedAt, List.filterMap_append]

theorem storedAt_cons (p : Ptr) (x : Event) (xs : List Event) :
    storedAt p (x :: xs) = storedAt p [x] ++ storedAt p xs := by
  rw [← storedAt_append]
  rfl

theorem frameRun_append (s : FrameState) (xs ys : List Event) :
    frameRun s (xs ++ ys) =
      match frameRun s xs with
      | some s2 => frameRun s2 ys
      | none => none := by
  induction xs generalizing s with
  | nil => rfl
  | cons x xs ih =>
    simp only [List.cons_append, frameRun]
    cases hstep : frameStep s x with
    | none => rfl
    | some s2 => exact ih s2

/-! ## The constructor and `Make` -/

theorem ctor_value (E : Env) (sc : Ptr) (F : DXGIFactory) (dev desc : Ptr) (h : List Event) :
    (DXGISwapChain.ctor E sc F dev desc h).1 = { m_factory := F, m_device := dev, m_orig := sc } := by
  simp only [DXGISwapChain.ctor, Run.pure_apply, Run.bind_apply, Run.emit_apply, Run.call_apply,
    Run.ask_apply, Run.ite_apply]
  split_ifs <;> rfl

theorem ctor_frameCycle (E : Env) (sc : Ptr) (F : DXGIFactory) (dev desc : Ptr) (h : List Event) :
    (DXGISwapChain.ctor E sc F dev desc h).2.filter Event.isFrameCycle =
      [Event.ImGui_ImplDX11_NewFrame, Event.ImGui_ImplWin32_NewFrame, Event.ImGui_NewFrame] := by
  simp only [DXGISwapChain.ctor, Run.pure_apply, Run.bind_apply, Run.emit_apply, Run.call_apply,
    Run.ask_apply, Run.ite_apply]
  split_ifs <;> simp [Event.isFrameCycle]

theorem ctor_frameRun (E : Env) (sc : Ptr) (F : DXGIFactory) (dev desc : Ptr) (h : List Event) :
    frameRun FrameState.noFrame (DXGISwapChain.ctor E sc F dev desc h).2 =
      some FrameState.frameOpen := by
  simp only [DXGISwapChain.ctor, Run.pure_apply, Run.bind_apply, Run.emit_apply, Run.call_apply,
    Run.ask_apply, Run.ite_apply]
  split_ifs <;> simp [frameRun, frameStep]

theorem ctor_teardown (E : Env) (sc : Ptr) (F : DXGIFactory) (dev desc : Ptr) (h : List Event) :
    (DXGISwapChain.ctor E sc F dev desc h).2.filter Event.isTeardown = [] := by
  simp only [DXGISwapChain.ctor, Run.pure_apply, Run.bind_apply, Run.emit_apply, Run.call_apply,
    Run.ask_apply, Run.ite_apply]
  split_ifs <;> simp [Event.isTeardown]

theorem ctor_no_create (E : Env) (sc : Ptr) (F : DXGIFactory) (dev desc : Ptr) (h : List Event) :
    (DXGISwapChain.ctor E sc F dev desc h).2.filter Event.isFactoryCreateSwapChain = [] := by
  simp only [DXGISwapChain.ctor, Run.pure_apply, Run.bind_apply, Run.emit_apply, Run.call_apply,
    Run.ask_apply, Run.ite_apply]
  split_ifs <;> simp [Event.isFactoryCreateSwapChain]

theorem ctor_no_make (E : Env) (sc : Ptr) (F : DXGIFactory) (dev desc : Ptr) (h : List Event) :
    (DXGISwapChain.ctor E sc F dev desc h).2.filter Event.isMake = [] := by
  simp only [DXGISwapChain.ctor, Run.pure_apply, Run.bind_apply, Run.emit_apply, Run.call_apply,
    Run.ask_apply, Run.ite_apply]
  split_ifs <;> simp [Event.isMake]

theorem ctor_no_store (E : Env) (sc : Ptr) (F : DXGIFactory) (dev desc : Ptr) (h : List Event)
    (p : Ptr) : (DXGISwapChain.ctor E sc F dev desc h).2.filterMap (Event.stored p) = [] := by
  simp only [DXGISwapChain.ctor, Run.pure_apply, Run.bind_apply, Run.emit_apply, Run.call_apply,
    Run.ask_apply, Run.ite_apply]
  split_ifs <;> simp [storedAt, Event.stored]

theorem Make_value (E : Env) (sc : Ptr) (F : DXGIFactory) (dev desc : Ptr) (h : List Event) :
    (Make_DXGISwapChain E sc F dev desc h).1 = { m_factory := F, m_device := dev, m_orig := sc } := by
  simp only [Make_DXGISwapChain, Run.bind_apply, ctor_value]

theorem Make_trace (E : Env) (sc : Ptr) (F : DXGIFactory) (dev desc : Ptr) (h : List Event) :
    (Make_DXGISwapChain E sc F dev desc h).2 =
      Event.Make_DXGISwapChain sc F dev desc ::
        (DXGISwapChain.ctor E sc F dev desc (h ++ [Event.Make_DXGISwapChain sc F dev desc])).2 := by
  simp only [Make_DXGISwapChain, Run.bind_apply, Run.emit_apply]
  rfl

/-! ## `CreateSwapChain`, spelled out -/

theorem before_no_create (E : Env) (pDevice ppSwapChain : Ptr) (h : List Event) :
    (CreateSwapChain_before E pDevice ppSwapChain h).filter Event.isFactoryCreateSwapChain = [] := by
  unfold CreateSwapChain_before
  split <;> simp [Event.isFactoryCreateSwapChain]

theorem before_no_make (E : Env) (pDevice ppSwapChain : Ptr) (h : List Event) :
    (CreateSwapChain_before E pDevice ppSwapChain h).filter Event.isMake = [] := by
  unfold CreateSwapChain_before
  split <;> simp [Event.isMake]

theorem before_no_overlay (E : Env) (pDevice ppSwapChain : Ptr) (h : List Event) :
    (CreateSwapChain_before E pDevice ppSwapChain h).filter Event.isOverlay = [] := by
  unfold CreateSwapChain_before
  split <;> simp [Event.isOverlay]

theorem before_store (E : Env) (pDevice ppSwapChain : Ptr) (h : List Event) :
    (CreateSwapChain_before E pDevice ppSwapChain h).filterMap (Event.stored ppSwapChain) =
      [none] := by
  unfold CreateSwapChain_before
  split <;> simp [storedAt, Event.stored]

/-- The result and the trace of `CreateSwapChain` when no argument is null. -/
theorem CreateSwapChain_run (E : Env) (F : DXGIFactory) (pDevice pDesc ppSwapChain : Ptr)
    (h : List Event) (hDevice : pDevice ≠ nullptr) (hDesc : pDesc ≠ nullptr)
    (hOut : ppSwapChain ≠ nullptr) :
    DXGIFactory.CreateSwapChain E F pDevice pDesc ppSwapChain h =
      ((CreateSwapChain_original E F pDevice pDesc ppSwapChain h).1,
        CreateSwapChain_before E pDevice ppSwapChain h ++
          Event.Factory_CreateSwapChain F.m_orig (CreateSwapChain_device E pDevice ppSwapChain h) pDesc
            (CreateSwapChain_original E F pDevice pDesc ppSwapChain h) ::
          if SUCCEEDED (CreateSwapChain_original E F pDevice pDesc ppSwapChain h).1 then
            (Make_DXGISwapChain E (CreateSwapChain_original E F pDevice pDesc ppSwapChain h).2 F
              pDevice pDesc
              (h ++ CreateSwapChain_before E pDevice ppSwapChain h ++
                [Event.Factory_CreateSwapChain F.m_orig
                  (CreateSwapChain_device E pDevice ppSwapChain h) pDesc
                  (CreateSwapChain_original E F pDevice pDesc ppSwapChain h)])).2 ++
              [Event.Store_ppSwapChain ppSwapChain (some
                { m_factory := F, m_device := pDevice,
                  m_orig := (CreateSwapChain_original E F pDevice pDesc ppSwapChain h).2 })]
          else []) := by
  have hn : ¬ (pDevice = nullptr ∨ pDesc = nullptr ∨ ppSwapChain = nullptr) := by
    simp [hDevice, hDesc, hOut]
  simp only [DXGIFactory.CreateSwapChain, if_neg hn, Run.pure_apply, Run.bind_apply,
    Run.emit_apply, Run.call_apply, Run.ite_apply, Make_value,
    CreateSwapChain_original, CreateSwapChain_before, CreateSwapChain_device,
    CreateSwapChain_unwrap, CreateSwapChain_probe]
  split_ifs <;> simp_all

/-- The calls of the original factory's `CreateSwapChain` within one
`CreateSwapChain` of the proxy: exactly one. -/
theorem CreateSwapChain_calls_original (E : Env) (F : DXGIFactory)
    (pDevice pDesc ppSwapChain : Ptr) (h : List Event) (hDevice : pDevice ≠ nullptr)
    (hDesc : pDesc ≠ nullptr) (hOut : ppSwapChain ≠ nullptr) :
    (DXGIFactory.CreateSwapChain E F pDevice pDesc ppSwapChain h).2.filter
        Event.isFactoryCreateSwapChain =
      [Event.Factory_CreateSwapChain F.m_orig (CreateSwapChain_device E pDevice ppSwapChain h)
        pDesc (CreateSwapChain_original E F pDevice pDesc ppSwapChain h)] := by
  rw [CreateSwapChain_run E F pDevice pDesc ppSwapChain h hDevice hDesc hOut]
  by_cases hS : SUCCEEDED (CreateSwapChain_original E F pDevice pDesc ppSwapChain h).1 = true
  · simp only [if_pos hS, Make_trace]
    simp [List.filter_append, ctor_no_create, before_no_create, Event.isFactoryCreateSwapChain]
  · simp only [if_neg hS]
    simp [List.filter_append, before_no_create, Event.isFactoryCreateSwapChain]

/-- The stores through `ppSwapChain` within one `CreateSwapChain`. -/
theorem CreateSwapChain_stores (E : Env) (F : DXGIFactory)
    (pDevice pDesc ppSwapChain : Ptr) (h : List Event) (hDevice : pDevice ≠ nullptr)
    (hDesc : pDesc ≠ nullptr) (hOut : ppSwapChain ≠ nullptr) :
    storedAt ppSwapChain (DXGIFactory.CreateSwapChain E F pDevice pDesc ppSwapChain h).2 =
      if SUCCEEDED (CreateSwapChain_original E F pDevice pDesc ppSwapChain h).1 then
        [none, some ⟨F, pDevice, (CreateSwapChain_original E F pDevice pDesc ppSwapChain h).2⟩]
      else [none] := by
  rw [CreateSwapChain_run E F pDevice pDesc ppSwapChain h hDevice hDesc hOut]
  by_cases hS : SUCCEEDED (CreateSwapChain_original E F pDevice pDesc ppSwapChain h).1 = true
  · simp only [if_pos hS, Make_trace]
    simp [storedAt, List.filterMap_append, List.filterMap_cons, ctor_no_store, before_store,
      Event.stored]
  · simp only [if_neg hS]
    simp [storedAt, List.filterMap_append, List.filterMap_cons, before_store, Event.stored]

/-- The `Make` calls within one `CreateSwapChain`. -/
theorem CreateSwapChain_makes (E : Env) (F : DXGIFactory)
    (pDevice pDesc ppSwapChain : Ptr) (h : List Event) (hDevice : pDevice ≠ nullptr)
    (hDesc : pDesc ≠ nullptr) (hOut : ppSwapChain ≠ nullptr) :
    (DXGIFactory.CreateSwapChain E F pDevice pDesc ppSwapChain h).2.filter Event.isMake =
      if SUCCEEDED (CreateSwapChain_original E F pDevice pDesc ppSwapChain h).1 then
        [Event.Make_DXGISwapChain (CreateSwapChain_original E F pDevice pDesc ppSwapChain h).2
          F pDevice pDesc]
      else [] := by
  rw [CreateSwapChain_run E F pDevice pDesc ppSwapChain h hDevice hDesc hOut]
  by_cases hS : SUCCEEDED (CreateSwapChain_original E F pDevice pDesc ppSwapChain h).1 = true
  · simp only [if_pos hS, Make_trace]
    simp [List.filter_append, ctor_no_make, before_no_make, Event.isMake]
  · simp only [if_neg hS]
    simp [List.filter_append, before_no_make, Event.isMake]

/-- A failing original leaves the overlay untouched. -/
theorem CreateSwapChain_failed_no_overlay (E : Env) (F : DXGIFactory)
    (pDevice pDesc ppSwapChain : Ptr) (h : List Event) (hDevice : pDevice ≠ nullptr)
    (hDesc : pDesc ≠ nullptr) (hOut : ppSwapChain ≠ nullptr)
    (hFail : SUCCEEDED (CreateSwapChain_original E F pDevice pDesc ppSwapChain h).1 = false) :
    (DXGIFactory.CreateSwapChain E F pDevice pDesc ppSwapChain h).2.filter Event.isOverlay
      = [] := by
  rw [CreateSwapChain_run E F pDevice pDesc ppSwapChain h hDevice hDesc hOut]
  simp [List.filter_append, before_no_overlay, hFail, Event.isOverlay]

/-! ## Claims about `DXGIFactory::CreateSwapChain` -/

/-- C1: when at least one of `pDevice`, `pDesc`, `ppSwapChain` is null,
`CreateSwapChain` returns `DXGI_ERROR_INVALID_CALL` and emits nothing at all:
no store through `ppSwapChain`, no call of the original factory, no `Make`
of a swapchain proxy. -/
theorem CreateSwapChain_null_argument (E : Env) (F : DXGIFactory)
    (pDevice pDesc ppSwapChain : Ptr) (h : List Event)
    (hNull : pDevice = nullptr ∨ pDesc = nullptr ∨ ppSwapChain = nullptr) :
    DXGIFactory.CreateSwapChain E F pDevice pDesc ppSwapChain h =
      (DXGI_ERROR_INVALID_CALL, []) := by
  simp only [DXGIFactory.CreateSwapChain, if_pos hNull, Run.pure_apply]

theorem CreateSwapChain_null_argument_witness :
    (10 = nullptr ∨ nullptr = nullptr ∨ 30 = nullptr) ∧
    DXGIFactory.CreateSwapChain wrappedEnv sampleFactory 10 nullptr 30 [] =
      (DXGI_ERROR_INVALID_CALL, []) :=
  ⟨Or.inr (Or.inl rfl),
    CreateSwapChain_null_argument wrappedEnv sampleFactory 10 nullptr 30 []
      (Or.inr (Or.inl rfl))⟩

/-- C2: with non-null arguments, a device that answers the `IWrapperObject`
probe, a `GetUnderlyingInterface` that succeeds with `U` and an original
factory that succeeds, the original factory's `CreateSwapChain` is called
once, with `U` and the caller's description; the proxy stored in
`*ppSwapChain` keeps the caller's device, and its `GetDevice` is one
`QueryInterface` on that device, whose answer it returns. -/
theorem CreateSwapChain_wrapped_device (E : Env) (F : DXGIFactory)
    (pDevice pDesc ppSwapChain : Ptr) (h : List Event) (hDevice : pDevice ≠ nullptr)
    (hDesc : pDesc ≠ nullptr) (hOut : ppSwapChain ≠ nullptr)
    (hProbe : SUCCEEDED (CreateSwapChain_probe E pDevice ppSwapChain h).1 = true)
    (hUnwrap : SUCCEEDED (CreateSwapChain_unwrap E pDevice ppSwapChain h).1 = true)
    (hOrig : SUCCEEDED (CreateSwapChain_original E F pDevice pDesc ppSwapChain h).1 = true) :
    (DXGIFactory.CreateSwapChain E F pDevice pDesc ppSwapChain h).2.filter
        Event.isFactoryCreateSwapChain =
      [Event.Factory_CreateSwapChain F.m_orig (CreateSwapChain_unwrap E pDevice ppSwapChain h).2
        pDesc (CreateSwapChain_original E F pDevice pDesc ppSwapChain h)]
    ∧ ∃ S : DXGISwapChain,
        (storedAt ppSwapChain
          (DXGIFactory.CreateSwapChain E F pDevice pDesc ppSwapChain h).2).getLast? =
            some (some S)
        ∧ S.m_device = pDevice
        ∧ ∀ (riid : IID) (h2 : List Event),
            DXGISwapChain.GetDevice E S riid h2 =
              (E.QueryInterface h2 pDevice riid,
                [Event.QueryInterface pDevice riid (E.QueryInterface h2 pDevice riid)]) := by
  constructor
  · rw [CreateSwapChain_calls_original E F pDevice pDesc ppSwapChain h hDevice hDesc hOut]
    simp [CreateSwapChain_device, hProbe, hUnwrap]
  · refine ⟨⟨F, pDevice, (CreateSwapChain_original E F pDevice pDesc ppSwapChain h).2⟩,
      ?_, rfl, ?_⟩
    · rw [CreateSwapChain_stores E F pDevice pDesc ppSwapChain h hDevice hDesc hOut]
      simp [hOrig]
    · intro riid h2
      rfl

theorem CreateSwapChain_wrapped_device_witness :
    (DXGIFactory.CreateSwapChain wrappedEnv sampleFactory 10 20 30 []).2.filter
        Event.isFactoryCreateSwapChain =
      [Event.Factory_CreateSwapChain 100 12 20 (S_OK, 200)]
    ∧ ∃ S : DXGISwapChain,
        (storedAt 30
          (DXGIFactory.CreateSwapChain wrappedEnv sampleFactory 10 20 30 []).2).getLast? =
            some (some S)
        ∧ S.m_device = 10
        ∧ ∀ (riid : IID) (h2 : List Event),
            DXGISwapChain.GetDevice wrappedEnv S riid h2 =
              (wrappedEnv.QueryInterface h2 10 riid,
                [Event.QueryInterface 10 riid (wrappedEnv.QueryInterface h2 10 riid)]) :=
  CreateSwapChain_wrapped_device wrappedEnv sampleFactory 10 20 30 []
    (by decide) (by decide) (by decide) (by decide) (by decide) (by decide)

/-- C3: with non-null arguments the proxy returns exactly the result code
of the original factory's single `CreateSwapChain` call.  When that code is a
failure the only store through `ppSwapChain` is the null one, and the call
makes no swapchain proxy and touches no overlay function.  When it is a
success the last store through `ppSwapChain` is a proxy made in this call
around the swapchain the original returned. -/
theorem CreateSwapChain_propagates_result (E : Env) (F : DXGIFactory)
    (pDevice pDesc ppSwapChain : Ptr) (h : List Event) (hDevice : pDevice ≠ nullptr)
    (hDesc : pDesc ≠ nullptr) (hOut : ppSwapChain ≠ nullptr) :
    (DXGIFactory.CreateSwapChain E F pDevice pDesc ppSwapChain h).1 =
      (CreateSwapChain_original E F pDevice pDesc ppSwapChain h).1
    ∧ (∃ device : Ptr,
        (DXGIFactory.CreateSwapChain E F pDevice pDesc ppSwapChain h).2.filter
          Event.isFactoryCreateSwapChain =
        [Event.Factory_CreateSwapChain F.m_orig device pDesc
          (CreateSwapChain_original E F pDevice pDesc ppSwapChain h)])
    ∧ (FAILED (CreateSwapChain_original E F pDevice pDesc ppSwapChain h).1 = true →
        storedAt ppSwapChain
          (DXGIFactory.CreateSwapChain E F pDevice pDesc ppSwapChain h).2 = [none]
        ∧ (DXGIFactory.CreateSwapChain E F pDevice pDesc ppSwapChain h).2.filter
            Event.isMake = []
        ∧ (DXGIFactory.CreateSwapChain E F pDevice pDesc ppSwapChain h).2.filter
            Event.isOverlay = [])
    ∧ (SUCCEEDED (CreateSwapChain_original E F pDevice pDesc ppSwapChain h).1 = true →
        (storedAt ppSwapChain
          (DXGIFactory.CreateSwapChain E F pDevice pDesc ppSwapChain h).2).getLast? =
          some (some ⟨F, pDevice,
            (CreateSwapChain_original E F pDevice pDesc ppSwapChain h).2⟩)
        ∧ (DXGIFactory.CreateSwapChain E F pDevice pDesc ppSwapChain h).2.filter
            Event.isMake =
          [Event.Make_DXGISwapChain
            (CreateSwapChain_original E F pDevice pDesc ppSwapChain h).2 F pDevice pDesc]) := by
  refine ⟨?_, ⟨_, CreateSwapChain_calls_original E F pDevice pDesc ppSwapChain h hDevice hDesc
    hOut⟩, ?_, ?_⟩
  · rw [CreateSwapChain_run E F pDevice pDesc ppSwapChain h hDevice hDesc hOut]
  · intro hFail
    have hS : SUCCEEDED (CreateSwapChain_original E F pDevice pDesc ppSwapChain h).1 = false := by
      rw [FAILED_eq_not_SUCCEEDED] at hFail
      simpa using hFail
    refine ⟨?_, ?_, CreateSwapChain_failed_no_overlay E F pDevice pDesc ppSwapChain h hDevice
      hDesc hOut hS⟩
    · rw [CreateSwapChain_stores E F pDevice pDesc ppSwapChain h hDevice hDesc hOut]
      simp [hS]
    · rw [CreateSwapChain_makes E F pDevice pDesc ppSwapChain h hDevice hDesc hOut]
      simp [hS]
  · intro hS
    constructor
    · rw [CreateSwapChain_stores E F pDevice pDesc ppSwapChain h hDevice hDesc hOut]
      simp [hS]
    · rw [CreateSwapChain_makes E F pDevice pDesc ppSwapChain h hDevice hDesc hOut]
      simp [hS]

theorem CreateSwapChain_propagates_result_witness :
    (DXGIFactory.CreateSwapChain
        { plainEnv 0 (S_OK, 90) S_OK with
          Factory_CreateSwapChain := fun _ _ _ _ => (DXGI_ERROR_INVALID_CALL, nullptr) }
        sampleFactory 10 20 30 []).1 = DXGI_ERROR_INVALID_CALL
    ∧ storedAt 30 (DXGIFactory.CreateSwapChain
        { plainEnv 0 (S_OK, 90) S_OK with
          Factory_CreateSwapChain := fun _ _ _ _ => (DXGI_ERROR_INVALID_CALL, nullptr) }
        sampleFactory 10 20 30 []).2 = [none]
    ∧ (DXGIFactory.CreateSwapChain (plainEnv 0 (S_OK, 90) S_OK) sampleFactory 10 20 30 []).1
        = S_OK
    ∧ (storedAt 30 (DXGIFactory.CreateSwapChain (plainEnv 0 (S_OK, 90) S_OK) sampleFactory
        10 20 30 []).2).getLast? = some (some sampleSwapChain) :=
  ⟨(CreateSwapChain_propagates_result _ sampleFactory 10 20 30 []
      (by decide) (by decide) (by decide)).1,
    ((CreateSwapChain_propagates_result _ sampleFactory 10 20 30 []
      (by decide) (by decide) (by decide)).2.2.1 (by decide)).1,
    (CreateSwapChain_propagates_result (plainEnv 0 (S_OK, 90) S_OK) sampleFactory 10 20 30 []
      (by decide) (by decide) (by decide)).1,
    ((CreateSwapChain_propagates_result (plainEnv 0 (S_OK, 90) S_OK) sampleFactory 10 20 30 []
      (by decide) (by decide) (by decide)).2.2.2 (by decide)).1⟩

/-- C10: with non-null arguments the original factory's `CreateSwapChain`
is called exactly once.  When the `IWrapperObject` probe fails, or succeeds
while `GetUnderlyingInterface` fails, that one call gets the caller's device
and description unchanged; when both succeed it gets the unwrapped device; so
a call with a device other than the caller's happens only when both
succeeded. -/
theorem CreateSwapChain_single_original_call (E : Env) (F : DXGIFactory)
    (pDevice pDesc ppSwapChain : Ptr) (h : List Event) (hDevice : pDevice ≠ nullptr)
    (hDesc : pDesc ≠ nullptr) (hOut : ppSwapChain ≠ nullptr) :
    ((DXGIFactory.CreateSwapChain E F pDevice pDesc ppSwapChain h).2.filter
        Event.isFactoryCreateSwapChain).length = 1
    ∧ (FAILED (CreateSwapChain_probe E pDevice ppSwapChain h).1 = true ∨
        (SUCCEEDED (CreateSwapChain_probe E pDevice ppSwapChain h).1 = true ∧
          FAILED (CreateSwapChain_unwrap E pDevice ppSwapChain h).1 = true) →
        (DXGIFactory.CreateSwapChain E F pDevice pDesc ppSwapChain h).2.filter
          Event.isFactoryCreateSwapChain =
        [Event.Factory_CreateSwapChain F.m_orig pDevice pDesc
          (CreateSwapChain_original E F pDevice pDesc ppSwapChain h)])
    ∧ (SUCCEEDED (CreateSwapChain_probe E pDevice ppSwapChain h).1 = true →
        SUCCEEDED (CreateSwapChain_unwrap E pDevice ppSwapChain h).1 = true →
        (DXGIFactory.CreateSwapChain E F pDevice pDesc ppSwapChain h).2.filter
          Event.isFactoryCreateSwapChain =
        [Event.Factory_CreateSwapChain F.m_orig
          (CreateSwapChain_unwrap E pDevice ppSwapChain h).2 pDesc
          (CreateSwapChain_original E F pDevice pDesc ppSwapChain h)])
    ∧ (∀ (orig device desc : Ptr) (ret : HRESULT × Ptr),
        Event.Factory_CreateSwapChain orig device desc ret ∈
          (DXGIFactory.CreateSwapChain E F pDevice pDesc ppSwapChain h).2 →
        device ≠ pDevice →
        SUCCEEDED (CreateSwapChain_probe E pDevice ppSwapChain h).1 = true ∧
          SUCCEEDED (CreateSwapChain_unwrap E pDevice ppSwapChain h).1 = true ∧
          device = (CreateSwapChain_unwrap E pDevice ppSwapChain h).2) := by
  have hcalls := CreateSwapChain_calls_original E F pDevice pDesc ppSwapChain h hDevice hDesc hOut
  refine ⟨?_, ?_, ?_, ?_⟩
  · rw [hcalls]
    rfl
  · intro hfail
    rw [hcalls]
    have hdev : CreateSwapChain_device E pDevice ppSwapChain h = pDevice := by
      unfold CreateSwapChain_device
      rw [FAILED_eq_not_SUCCEEDED, FAILED_eq_not_SUCCEEDED] at hfail
      rcases hfail with hp | ⟨_, hu⟩
      · have hp2 : SUCCEEDED (CreateSwapChain_probe E pDevice ppSwapChain h).1 = false := by
          simpa using hp
        simp [hp2]
      · have hu2 : SUCCEEDED (CreateSwapChain_unwrap E pDevice ppSwapChain h).1 = false := by
          simpa using hu
        simp [hu2]
    rw [hdev]
  · intro hp hu
    rw [hcalls]
    simp [CreateSwapChain_device, hp, hu]
  · intro orig device desc ret hmem hne
    have hfilter : Event.Factory_CreateSwapChain orig device desc ret ∈
        (DXGIFactory.CreateSwapChain E F pDevice pDesc ppSwapChain h).2.filter
          Event.isFactoryCreateSwapChain :=
      List.mem_filter.mpr ⟨hmem, rfl⟩
    rw [hcalls] at hfilter
    simp only [List.mem_singleton, Event.Factory_CreateSwapChain.injEq] at hfilter
    obtain ⟨_, hdev, _, _⟩ := hfilter
    unfold CreateSwapChain_device at hdev
    by_cases hb : SUCCEEDED (CreateSwapChain_probe E pDevice ppSwapChain h).1 = true ∧
        SUCCEEDED (CreateSwapChain_unwrap E pDevice ppSwapChain h).1 = true
    · rw [if_pos hb] at hdev
      exact ⟨hb.1, hb.2, hdev⟩
    · rw [if_neg hb] at hdev
      exact absurd hdev hne

theorem CreateSwapChain_single_original_call_witness :
    ((DXGIFactory.CreateSwapChain (plainEnv 0 (S_OK, 90) S_OK) sampleFactory 10 20 30 []).2.filter
        Event.isFactoryCreateSwapChain) = [Event.Factory_CreateSwapChain 100 10 20 (S_OK, 200)]
    ∧ ((DXGIFactory.CreateSwapChain wrappedEnv sampleFactory 10 20 30 []).2.filter
        Event.isFactoryCreateSwapChain) = [Event.Factory_CreateSwapChain 100 12 20 (S_OK, 200)] :=
  ⟨(CreateSwapChain_single_original_call (plainEnv 0 (S_OK, 90) S_OK) sampleFactory 10 20 30 []
      (by decide) (by decide) (by decide)).2.1 (Or.inl (by decide)),
    (CreateSwapChain_single_original_call wrappedEnv sampleFactory 10 20 30 []
      (by decide) (by decide) (by decide)).2.2.1 (by decide) (by decide)⟩

/-! ## Claims about `QueryInterface` and `GetParent` -/

theorem Factory_QueryInterface_local (E : Env) (F : DXGIFactory) (riid : IID) (h : List Event)
    (hLocal : SUCCEEDED (E.Factory_super_QueryInterface h F riid).1 = true) :
    DXGIFactory.QueryInterface E F riid h =
      (E.Factory_super_QueryInterface h F riid,
        [Event.Factory_super_QueryInterface F riid (E.Factory_super_QueryInterface h F riid)]) := by
  have hF : FAILED (E.Factory_super_QueryInterface h F riid).1 = false := by
    rw [FAILED_eq_not_SUCCEEDED, hLocal]
    rfl
  simp only [DXGIFactory.QueryInterface, Run.pure_apply, Run.bind_apply, Run.call_apply,
    Run.ite_apply, hF]
  simp

theorem Factory_QueryInterface_delegated (E : Env) (F : DXGIFactory) (riid : IID)
    (h : List Event) (hLocal : FAILED (E.Factory_super_QueryInterface h F riid).1 = true) :
    DXGIFactory.QueryInterface E F riid h =
      (E.QueryInterface
          (h ++ [Event.Factory_super_QueryInterface F riid
            (E.Factory_super_QueryInterface h F riid)]) F.m_orig riid,
        [Event.Factory_super_QueryInterface F riid (E.Factory_super_QueryInterface h F riid),
          Event.QueryInterface F.m_orig riid
            (E.QueryInterface
              (h ++ [Event.Factory_super_QueryInterface F riid
                (E.Factory_super_QueryInterface h F riid)]) F.m_orig riid)]) := by
  simp only [DXGIFactory.QueryInterface, Run.pure_apply, Run.bind_apply, Run.call_apply,
    Run.ite_apply, hLocal]
  simp

theorem SwapChain_QueryInterface_local (E : Env) (S : DXGISwapChain) (riid : IID)
    (h : List Event) (hLocal : SUCCEEDED (E.SwapChain_super_QueryInterface h S riid).1 = true) :
    DXGISwapChain.QueryInterface E S riid h =
      (E.SwapChain_super_QueryInterface h S riid,
        [Event.SwapChain_super_QueryInterface S riid
          (E.SwapChain_super_QueryInterface h S riid)]) := by
  have hF : FAILED (E.SwapChain_super_QueryInterface h S riid).1 = false := by
    rw [FAILED_eq_not_SUCCEEDED, hLocal]
    rfl
  simp only [DXGISwapChain.QueryInterface, Run.pure_apply, Run.bind_apply, Run.call_apply,
    Run.ite_apply, hF]
  simp

theorem SwapChain_QueryInterface_delegated (E : Env) (S : DXGISwapChain) (riid : IID)
    (h : List Event) (hLocal : FAILED (E.SwapChain_super_QueryInterface h S riid).1 = true) :
    DXGISwapChain.QueryInterface E S riid h =
      (E.QueryInterface
          (h ++ [Event.SwapChain_super_QueryInterface S riid
            (E.SwapChain_super_QueryInterface h S riid)]) S.m_orig riid,
        [Event.SwapChain_super_QueryInterface S riid (E.SwapChain_super_QueryInterface h S riid),
          Event.QueryInterface S.m_orig riid
            (E.QueryInterface
              (h ++ [Event.SwapChain_super_QueryInterface S riid
                (E.SwapChain_super_QueryInterface h S riid)]) S.m_orig riid)]) := by
  simp only [DXGISwapChain.QueryInterface, Run.pure_apply, Run.bind_apply, Run.call_apply,
    Run.ite_apply, hLocal]
  simp

/-- C7: for the factory proxy and for the swapchain proxy alike, and for
every interface identifier: when the local lookup succeeds, `QueryInterface`
returns the local result code and pointer and its only call is that lookup,
so the original is not asked; when the local lookup fails, `QueryInterface`
asks the original for the same identifier and returns exactly the result code
and pointer the original gives. -/
theorem QueryInterface_local_then_original (E : Env) (F : DXGIFactory) (S : DXGISwapChain)
    (riid : IID) (h : List Event) :
    (SUCCEEDED (E.Factory_super_QueryInterface h F riid).1 = true →
      DXGIFactory.QueryInterface E F riid h =
        (E.Factory_super_QueryInterface h F riid,
          [Event.Factory_super_QueryInterface F riid
            (E.Factory_super_QueryInterface h F riid)]))
    ∧ (FAILED (E.Factory_super_QueryInterface h F riid).1 = true →
      DXGIFactory.QueryInterface E F riid h =
        (E.QueryInterface
            (h ++ [Event.Factory_super_QueryInterface F riid
              (E.Factory_super_QueryInterface h F riid)]) F.m_orig riid,
          [Event.Factory_super_QueryInterface F riid (E.Factory_super_QueryInterface h F riid),
            Event.QueryInterface F.m_orig riid
              (E.QueryInterface
                (h ++ [Event.Factory_super_QueryInterface F riid
                  (E.Factory_super_QueryInterface h F riid)]) F.m_orig riid)]))
    ∧ (SUCCEEDED (E.SwapChain_super_QueryInterface h S riid).1 = true →
      DXGISwapChain.QueryInterface E S riid h =
        (E.SwapChain_super_QueryInterface h S riid,
          [Event.SwapChain_super_QueryInterface S riid
            (E.SwapChain_super_QueryInterface h S riid)]))
    ∧ (FAILED (E.SwapChain_super_QueryInterface h S riid).1 = true →
      DXGISwapChain.QueryInterface E S riid h =
        (E.QueryInterface
            (h ++ [Event.SwapChain_super_QueryInterface S riid
              (E.SwapChain_super_QueryInterface h S riid)]) S.m_orig riid,
          [Event.SwapChain_super_QueryInterface S riid
              (E.SwapChain_super_QueryInterface h S riid),
            Event.QueryInterface S.m_orig riid
              (E.QueryInterface
                (h ++ [Event.SwapChain_super_QueryInterface S riid
                  (E.SwapChain_super_QueryInterface h S riid)]) S.m_orig riid)])) :=
  ⟨Factory_QueryInterface_local E F riid h, Factory_QueryInterface_delegated E F riid h,
    SwapChain_QueryInterface_local E S riid h, SwapChain_QueryInterface_delegated E S riid h⟩

theorem QueryInterface_local_then_original_witness :
    DXGIFactory.QueryInterface wrappedEnv sampleFactory IID.IUnknown [] =
      ((S_OK, 1), [Event.Factory_super_QueryInterface sampleFactory IID.IUnknown (S_OK, 1)])
    ∧ DXGIFactory.QueryInterface wrappedEnv sampleFactory (IID.other 5) [] =
      ((S_OK, 100),
        [Event.Factory_super_QueryInterface sampleFactory (IID.other 5) (E_NOINTERFACE, nullptr),
          Event.QueryInterface 100 (IID.other 5) (S_OK, 100)])
    ∧ DXGISwapChain.QueryInterface wrappedEnv sampleSwapChain IID.IUnknown [] =
      ((S_OK, 300), [Event.SwapChain_super_QueryInterface sampleSwapChain IID.IUnknown (S_OK, 300)])
    ∧ DXGISwapChain.QueryInterface wrappedEnv sampleSwapChain (IID.other 5) [] =
      ((S_OK, 200),
        [Event.SwapChain_super_QueryInterface sampleSwapChain (IID.other 5)
            (E_NOINTERFACE, nullptr),
          Event.QueryInterface 200 (IID.other 5) (S_OK, 200)]) :=
  ⟨(QueryInterface_local_then_original wrappedEnv sampleFactory sampleSwapChain IID.IUnknown
      []).1 (by decide),
    (QueryInterface_local_then_original wrappedEnv sampleFactory sampleSwapChain (IID.other 5)
      []).2.1 (by decide),
    (QueryInterface_local_then_original wrappedEnv sampleFactory sampleSwapChain IID.IUnknown
      []).2.2.1 (by decide),
    (QueryInterface_local_then_original wrappedEnv sampleFactory sampleSwapChain (IID.other 5)
      []).2.2.2 (by decide)⟩

/-- C9, as the claim states it, fails: the swapchain proxy that
`sampleFactory` creates answers `GetParent` for an interface the factory
proxy does not implement itself by asking the original factory, and hands
out the original factory's own pointer `100`, not the local answer of the
factory proxy. -/
theorem GetParent_hands_out_original_factory :
    (storedAt 30 (DXGIFactory.CreateSwapChain (plainEnv 0 (S_OK, 90) S_OK) sampleFactory
        10 20 30 []).2).getLast? = some (some sampleSwapChain)
    ∧ (DXGISwapChain.GetParent (plainEnv 0 (S_OK, 90) S_OK) sampleSwapChain (IID.other 1) []).1
        = (S_OK, sampleFactory.m_orig)
    ∧ Event.QueryInterface sampleFactory.m_orig (IID.other 1) (S_OK, sampleFactory.m_orig) ∈
        (DXGISwapChain.GetParent (plainEnv 0 (S_OK, 90) S_OK) sampleSwapChain (IID.other 1) []).2
    ∧ (DXGISwapChain.GetParent (plainEnv 0 (S_OK, 90) S_OK) sampleSwapChain (IID.other 1) []).1
        ≠ (plainEnv 0 (S_OK, 90) S_OK).Factory_super_QueryInterface [] sampleFactory
            (IID.other 1) := by
  refine ⟨by decide, by decide, by decide, by decide⟩

/-- C9, amended: the swapchain proxy stored by a successful
`CreateSwapChain` on factory proxy `F` keeps `F` itself, and its `GetParent`
is `F`'s own `QueryInterface`: when `F`'s local lookup succeeds the answer is
that local answer and nothing else is called; when it fails the answer is
what the original factory's `QueryInterface` gives.  `GetParent` on `F` is
one call of the original factory's `GetParent`, whose result code and pointer
it returns. -/
theorem GetParent_of_created_swapchain (E : Env) (F : DXGIFactory)
    (pDevice pDesc ppSwapChain : Ptr) (h : List Event) (hDevice : pDevice ≠ nullptr)
    (hDesc : pDesc ≠ nullptr) (hOut : ppSwapChain ≠ nullptr)
    (hOrig : SUCCEEDED (CreateSwapChain_original E F pDevice pDesc ppSwapChain h).1 = true) :
    ∃ S : DXGISwapChain,
      (storedAt ppSwapChain
        (DXGIFactory.CreateSwapChain E F pDevice pDesc ppSwapChain h).2).getLast? =
          some (some S)
      ∧ S.m_factory = F
      ∧ (∀ (riid : IID) (h2 : List Event),
          SUCCEEDED (E.Factory_super_QueryInterface h2 F riid).1 = true →
          DXGISwapChain.GetParent E S riid h2 =
            (E.Factory_super_QueryInterface h2 F riid,
              [Event.Factory_super_QueryInterface F riid
                (E.Factory_super_QueryInterface h2 F riid)]))
      ∧ (∀ (riid : IID) (h2 : List Event),
          FAILED (E.Factory_super_QueryInterface h2 F riid).1 = true →
          DXGISwapChain.GetParent E S riid h2 =
            (E.QueryInterface
                (h2 ++ [Event.Factory_super_QueryInterface F riid
                  (E.Factory_super_QueryInterface h2 F riid)]) F.m_orig riid,
              [Event.Factory_super_QueryInterface F riid
                  (E.Factory_super_QueryInterface h2 F riid),
                Event.QueryInterface F.m_orig riid
                  (E.QueryInterface
                    (h2 ++ [Event.Factory_super_QueryInterface F riid
                      (E.Factory_super_QueryInterface h2 F riid)]) F.m_orig riid)]))
      ∧ (∀ (riid : IID) (h2 : List Event),
          DXGIFactory.GetParent E F riid h2 =
            (E.Factory_GetParent h2 F.m_orig riid,
              [Event.Factory_GetParent F.m_orig riid (E.Factory_GetParent h2 F.m_orig riid)])) := by
  refine ⟨⟨F, pDevice, (CreateSwapChain_original E F pDevice pDesc ppSwapChain h).2⟩,
    ?_, rfl, ?_, ?_, ?_⟩
  · rw [CreateSwapChain_stores E F pDevice pDesc ppSwapChain h hDevice hDesc hOut]
    simp [hOrig]
  · intro riid h2 hLocal
    exact Factory_QueryInterface_local E F riid h2 hLocal
  · intro riid h2 hLocal
    exact Factory_QueryInterface_delegated E F riid h2 hLocal
  · intro riid h2
    rfl

theorem GetParent_of_created_swapchain_witness :
    ∃ S : DXGISwapChain,
      (storedAt 30 (DXGIFactory.CreateSwapChain (plainEnv 0 (S_OK, 90) S_OK) sampleFactory
        10 20 30 []).2).getLast? = some (some S)
      ∧ S.m_factory = sampleFactory
      ∧ DXGISwapChain.GetParent (plainEnv 0 (S_OK, 90) S_OK) S IID.IUnknown [] =
          ((S_OK, 1), [Event.Factory_super_QueryInterface sampleFactory IID.IUnknown (S_OK, 1)]) := by
  obtain ⟨S, hS, hF, hLoc, _, _⟩ :=
    GetParent_of_created_swapchain (plainEnv 0 (S_OK, 90) S_OK) sampleFactory 10 20 30 []
      (by decide) (by decide) (by decide) (by decide)
  exact ⟨S, hS, hF, hLoc IID.IUnknown [] (by decide)⟩

/-! ## `Present`, spelled out -/

/-- The result and the trace of `Present`. -/
theorem Present_run (E : Env) (S : DXGISwapChain) (a b : UINT) (h : List Event) :
    DXGISwapChain.Present E S a b h =
      (Present_original E S a b h,
        Present_begin E h ++ Present_stage E S h ++ Present_end E S a b h) := by
  simp only [DXGISwapChain.Present, Run.pure_apply, Run.bind_apply, Run.emit_apply,
    Run.call_apply, DXGISwapChain.GetBuffer, Run.ite_apply, Present_original, Present_begin,
    Present_stage, Present_end, Present_drawData]
  split_ifs <;> simp_all

theorem stage_no_present (E : Env) (S : DXGISwapChain) (h : List Event) :
    (Present_stage E S h).filter Event.isSwapChainPresent = [] := by
  simp only [Present_stage]
  split_ifs <;> simp [Event.isSwapChainPresent]

theorem stage_no_frameCycle (E : Env) (S : DXGISwapChain) (h : List Event) :
    (Present_stage E S h).filter Event.isFrameCycle = [] := by
  simp only [Present_stage]
  split_ifs <;> simp [Event.isFrameCycle]

theorem stage_no_teardown (E : Env) (S : DXGISwapChain) (h : List Event) :
    (Present_stage E S h).filter Event.isTeardown = [] := by
  simp only [Present_stage]
  split_ifs <;> simp [Event.isTeardown]

theorem stage_frameRun (E : Env) (S : DXGISwapChain) (h : List Event) (s : FrameState) :
    frameRun s (Present_stage E S h) = some s := by
  simp only [Present_stage]
  split_ifs <;> simp [frameRun, frameStep]

theorem stage_buffer_failed (E : Env) (S : DXGISwapChain) (h : List Event)
    (orig : Ptr) (Buffer : UINT) (riid : IID) (ret : HRESULT × Ptr)
    (hmem : Event.SwapChain_GetBuffer orig Buffer riid ret ∈ Present_stage E S h)
    (hfail : SUCCEEDED ret.1 = false) :
    (Present_stage E S h).filter Event.isOMSetRenderTargets = [] := by
  revert hmem
  simp only [Present_stage]
  split_ifs with h1 h2 h3 h4
  · intro hmem
    simp only [List.mem_cons, List.mem_singleton, List.not_mem_nil, or_false,
      Event.SwapChain_GetBuffer.injEq, false_or, reduceCtorEq] at hmem
    obtain ⟨_, _, _, hret⟩ := hmem
    rw [hret, h3] at hfail
    exact absurd hfail (by decide)
  all_goals intro _; simp [Event.isOMSetRenderTargets]

theorem stage_view_failed (E : Env) (S : DXGISwapChain) (h : List Event)
    (d rt : Ptr) (ret : HRESULT × Ptr)
    (hmem : Event.CreateRenderTargetView d rt ret ∈ Present_stage E S h)
    (hfail : SUCCEEDED ret.1 = false) :
    (Present_stage E S h).filter Event.isOMSetRenderTargets = [] := by
  revert hmem
  simp only [Present_stage]
  split_ifs with h1 h2 h3 h4
  · intro hmem
    simp only [List.mem_cons, List.mem_singleton, List.not_mem_nil, or_false,
      Event.CreateRenderTargetView.injEq, false_or, reduceCtorEq] at hmem
    obtain ⟨_, _, hret⟩ := hmem
    rw [hret, h4] at hfail
    exact absurd hfail (by decide)
  all_goals intro _; simp [Event.isOMSetRenderTargets]

theorem Present_frameCycle (E : Env) (S : DXGISwapChain) (a b : UINT) (h : List Event) :
    (DXGISwapChain.Present E S a b h).2.filter Event.isFrameCycle =
      [Event.ImGui_Render,
        Event.SwapChain_Present S.m_orig a b (DXGISwapChain.Present E S a b h).1,
        Event.ImGui_ImplDX11_NewFrame, Event.ImGui_ImplWin32_NewFrame, Event.ImGui_NewFrame] := by
  rw [Present_run]
  simp [List.filter_append, stage_no_frameCycle, Present_begin, Present_end, Event.isFrameCycle]

theorem Present_frameRun (E : Env) (S : DXGISwapChain) (a b : UINT) (h : List Event) :
    frameRun FrameState.frameOpen (DXGISwapChain.Present E S a b h).2 =
      some FrameState.frameOpen := by
  rw [Present_run, frameRun_append, frameRun_append]
  simp [Present_begin, Present_end, frameRun, frameStep, stage_frameRun]

theorem Present_teardown (E : Env) (S : DXGISwapChain) (a b : UINT) (h : List Event) :
    (DXGISwapChain.Present E S a b h).2.filter Event.isTeardown = [] := by
  rw [Present_run]
  simp [List.filter_append, stage_no_teardown, Present_begin, Present_end, Event.isTeardown]

/-! ## Claims about `Present` -/

/-- C4: for every `Present(SyncInterval, Flags)` and whatever the overlay
stages do, the original swapchain's `Present` is called exactly once, with
the same `SyncInterval` and `Flags`, and the value returned is the result
code the original gave.  The call always ends with the draw data submitted
to the render backend, the original `Present` and the new frame; and when
`GetBuffer` or `CreateRenderTargetView` fails there is no
`OMSetRenderTargets` in the call. -/
theorem Present_forwards_to_original (E : Env) (S : DXGISwapChain) (SyncInterval Flags : UINT)
    (h : List Event) :
    (DXGISwapChain.Present E S SyncInterval Flags h).2.filter Event.isSwapChainPresent =
      [Event.SwapChain_Present S.m_orig SyncInterval Flags
        (DXGISwapChain.Present E S SyncInterval Flags h).1]
    ∧ (DXGISwapChain.Present E S SyncInterval Flags h).1 =
        Present_original E S SyncInterval Flags h
    ∧ (∃ before : List Event,
        (DXGISwapChain.Present E S SyncInterval Flags h).2 =
          before ++ Present_end E S SyncInterval Flags h
        ∧ before.filter Event.isSwapChainPresent = [])
    ∧ (∀ (orig : Ptr) (Buffer : UINT) (riid : IID) (ret : HRESULT × Ptr),
        Event.SwapChain_GetBuffer orig Buffer riid ret ∈
          (DXGISwapChain.Present E S SyncInterval Flags h).2 →
        FAILED ret.1 = true →
        (DXGISwapChain.Present E S SyncInterval Flags h).2.filter
          Event.isOMSetRenderTargets = [])
    ∧ (∀ (d3dDevice renderTarget : Ptr) (ret : HRESULT × Ptr),
        Event.CreateRenderTargetView d3dDevice renderTarget ret ∈
          (DXGISwapChain.Present E S SyncInterval Flags h).2 →
        FAILED ret.1 = true →
        (DXGISwapChain.Present E S SyncInterval Flags h).2.filter
          Event.isOMSetRenderTargets = []) := by
  have hstageOM : ∀ hs : (Present_stage E S h).filter Event.isOMSetRenderTargets = [],
      (DXGISwapChain.Present E S SyncInterval Flags h).2.filter Event.isOMSetRenderTargets
        = [] := by
    intro hs
    rw [Present_run]
    simp [List.filter_append, hs, Present_begin, Present_end, Event.isOMSetRenderTargets]
  refine ⟨?_, ?_, ⟨Present_begin E h ++ Present_stage E S h, ?_, ?_⟩, ?_, ?_⟩
  · rw [Present_run]
    simp [List.filter_append, stage_no_present, Present_begin, Present_end,
      Event.isSwapChainPresent]
  · rw [Present_run]
  · rw [Present_run]
  · simp [List.filter_append, stage_no_present, Present_begin, Event.isSwapChainPresent]
  · intro orig Buffer riid ret hmem hfail
    have hS : SUCCEEDED ret.1 = false := by
      rw [FAILED_eq_not_SUCCEEDED] at hfail
      simpa using hfail
    apply hstageOM
    rw [Present_run] at hmem
    simp only [List.mem_append, Present_begin, Present_end, List.mem_cons, List.mem_singleton,
      List.not_mem_nil, or_false, reduceCtorEq, false_or] at hmem
    exact stage_buffer_failed E S h orig Buffer riid ret hmem hS
  · intro d rt ret hmem hfail
    have hS : SUCCEEDED ret.1 = false := by
      rw [FAILED_eq_not_SUCCEEDED] at hfail
      simpa using hfail
    apply hstageOM
    rw [Present_run] at hmem
    simp only [List.mem_append, Present_begin, Present_end, List.mem_cons, List.mem_singleton,
      List.not_mem_nil, or_false, reduceCtorEq, false_or] at hmem
    exact stage_view_failed E S h d rt ret hmem hS

theorem Present_forwards_to_original_witness :
    (DXGISwapChain.Present (plainEnv 5 (E_FAIL, nullptr) S_OK) sampleSwapChain 1 0 []).2.filter
        Event.isOMSetRenderTargets = []
    ∧ (DXGISwapChain.Present
        { plainEnv 5 (S_OK, 90) E_FAIL with
          CreateRenderTargetView := fun _ _ _ => (E_FAIL, nullptr) }
        sampleSwapChain 1 0 []).2.filter Event.isOMSetRenderTargets = []
    ∧ (DXGISwapChain.Present (plainEnv 5 (S_OK, 90) E_FAIL) sampleSwapChain 1 0 []).2.filter
        Event.isSwapChainPresent = [Event.SwapChain_Present 200 1 0 E_FAIL] :=
  ⟨(Present_forwards_to_original (plainEnv 5 (E_FAIL, nullptr) S_OK) sampleSwapChain 1 0
      []).2.2.2.1 200 0 IID.ID3D11Resource (E_FAIL, nullptr) (by decide) (by decide),
    (Present_forwards_to_original _ sampleSwapChain 1 0 []).2.2.2.2 10 90 (E_FAIL, nullptr)
      (by decide) (by decide),
    (Present_forwards_to_original (plainEnv 5 (S_OK, 90) E_FAIL) sampleSwapChain 1 0 []).1⟩

/-- C5: when the finalized draw data has `TotalVtxCount` zero, `Present`
makes exactly these calls, in this order: `ShowDemoWindow`, `Render`,
`GetDrawData`, the submission of the draw data to the render backend, the
original `Present` once, and the three `NewFrame` calls (render backend,
platform, logical); so no `GetBuffer`, no `CreateRenderTargetView` and no
`OMSetRenderTargets`. -/
theorem Present_empty_frame (E : Env) (S : DXGISwapChain) (SyncInterval Flags : UINT)
    (h : List Event) (hEmpty : (Present_drawData E h).TotalVtxCount = 0) :
    DXGISwapChain.Present E S SyncInterval Flags h =
      (E.SwapChain_Present
          (h ++ [Event.ImGui_ShowDemoWindow, Event.ImGui_Render,
            Event.ImGui_GetDrawData (Present_drawData E h),
            Event.ImGui_ImplDX11_RenderDrawData (Present_drawData E h)])
          S.m_orig SyncInterval Flags,
        [Event.ImGui_ShowDemoWindow, Event.ImGui_Render,
          Event.ImGui_GetDrawData (Present_drawData E h),
          Event.ImGui_ImplDX11_RenderDrawData (Present_drawData E h),
          Event.SwapChain_Present S.m_orig SyncInterval Flags
            (E.SwapChain_Present
              (h ++ [Event.ImGui_ShowDemoWindow, Event.ImGui_Render,
                Event.ImGui_GetDrawData (Present_drawData E h),
                Event.ImGui_ImplDX11_RenderDrawData (Present_drawData E h)])
              S.m_orig SyncInterval Flags),
          Event.ImGui_ImplDX11_NewFrame, Event.ImGui_ImplWin32_NewFrame,
          Event.ImGui_NewFrame]) := by
  have hstage : Present_stage E S h = [] := by
    simp [Present_stage, hEmpty]
  rw [Present_run]
  simp [Present_original, Present_end, Present_begin, hstage]

theorem Present_empty_frame_witness :
    DXGISwapChain.Present (plainEnv 0 (S_OK, 90) E_FAIL) sampleSwapChain 1 0 [] =
      (E_FAIL,
        [Event.ImGui_ShowDemoWindow, Event.ImGui_Render,
          Event.ImGui_GetDrawData ⟨70, 0⟩,
          Event.ImGui_ImplDX11_RenderDrawData ⟨70, 0⟩,
          Event.SwapChain_Present 200 1 0 E_FAIL,
          Event.ImGui_ImplDX11_NewFrame, Event.ImGui_ImplWin32_NewFrame,
          Event.ImGui_NewFrame]) :=
  Present_empty_frame (plainEnv 0 (S_OK, 90) E_FAIL) sampleSwapChain 1 0 [] (by decide)

/-! ## A proxy in use: sequences of `Present` -/

theorem presentCalls_cons (E : Env) (S : DXGISwapChain) (c : UINT × UINT)
    (rest : List (UINT × UINT)) (h : List Event) :
    presentCalls E S (c :: rest) h =
      ((DXGISwapChain.Present E S c.1 c.2 h).1 ::
          (presentCalls E S rest (h ++ (DXGISwapChain.Present E S c.1 c.2 h).2)).1,
        (DXGISwapChain.Present E S c.1 c.2 h).2 ++
          (presentCalls E S rest (h ++ (DXGISwapChain.Present E S c.1 c.2 h).2)).2) := by
  simp only [presentCalls, Run.bind_apply, Run.pure_apply, List.append_nil]

theorem presentCalls_length (E : Env) (S : DXGISwapChain) (calls : List (UINT × UINT))
    (h : List Event) : (presentCalls E S calls h).1.length = calls.length := by
  induction calls generalizing h with
  | nil => rfl
  | cons c rest ih => simp [presentCalls_cons, ih]

theorem presentCalls_frameCycle (E : Env) (S : DXGISwapChain) (calls : List (UINT × UINT))
    (h : List Event) :
    (presentCalls E S calls h).2.filter Event.isFrameCycle =
      frameCycleOf S.m_orig (calls.zip (presentCalls E S calls h).1) := by
  induction calls generalizing h with
  | nil => rfl
  | cons c rest ih =>
    rw [presentCalls_cons]
    simp only [List.filter_append, Present_frameCycle, ih, List.zip_cons_cons, frameCycleOf]
    rfl

theorem presentCalls_frameRun (E : Env) (S : DXGISwapChain) (calls : List (UINT × UINT))
    (h : List Event) :
    frameRun FrameState.frameOpen (presentCalls E S calls h).2 = some FrameState.frameOpen := by
  induction calls generalizing h with
  | nil => rfl
  | cons c rest ih =>
    rw [presentCalls_cons]
    simp only [frameRun_append, Present_frameRun, ih]

theorem presentCalls_teardown (E : Env) (S : DXGISwapChain) (calls : List (UINT × UINT))
    (h : List Event) : (presentCalls E S calls h).2.filter Event.isTeardown = [] := by
  induction calls generalizing h with
  | nil => rfl
  | cons c rest ih =>
    rw [presentCalls_cons]
    simp only [List.filter_append, Present_teardown, ih, List.append_nil]

/-- C6: taking the overlay state of a swapchain proxy to be "frame open" or
"frame finalized": after construction and after every `Present` of any
sequence of `Present` calls, whatever the original `Present` returns, the
state is "frame open" and the frame cycle was never broken.  The
frame-cycle events of the run are the three `NewFrame` calls of the
constructor and then, for each `Present`, one `Render`, the original
`Present`, and the three `NewFrame` calls in the order render backend,
platform, logical. -/
theorem frame_open_after_every_Present (E : Env) (swapChain : Ptr) (factory : DXGIFactory)
    (device desc : Ptr) (calls : List (UINT × UINT)) (h : List Event) :
    frameRun FrameState.noFrame
        (constructAndPresent E swapChain factory device desc calls h).2 =
      some FrameState.frameOpen
    ∧ (constructAndPresent E swapChain factory device desc calls h).1.length = calls.length
    ∧ (constructAndPresent E swapChain factory device desc calls h).2.filter
        Event.isFrameCycle =
      [Event.ImGui_ImplDX11_NewFrame, Event.ImGui_ImplWin32_NewFrame, Event.ImGui_NewFrame]
      ++ frameCycleOf swapChain
          (calls.zip (constructAndPresent E swapChain factory device desc calls h).1)
    ∧ (∀ (S : DXGISwapChain) (SyncInterval Flags : UINT) (h2 : List Event),
        frameRun FrameState.frameOpen (DXGISwapChain.Present E S SyncInterval Flags h2).2 =
          some FrameState.frameOpen) := by
  have hrun : constructAndPresent E swapChain factory device desc calls h =
      ((presentCalls E ⟨factory, device, swapChain⟩ calls
          (h ++ (DXGISwapChain.ctor E swapChain factory device desc h).2)).1,
        (DXGISwapChain.ctor E swapChain factory device desc h).2 ++
          (presentCalls E ⟨factory, device, swapChain⟩ calls
            (h ++ (DXGISwapChain.ctor E swapChain factory device desc h).2)).2) := by
    simp only [constructAndPresent, Run.bind_apply, ctor_value]
  rw [hrun]
  refine ⟨?_, ?_, ?_, ?_⟩
  · simp only [frameRun_append, ctor_frameRun, presentCalls_frameRun]
  · exact presentCalls_length E _ calls _
  · simp only [List.filter_append, ctor_frameCycle, presentCalls_frameCycle]
  · intro S a b h2
    exact Present_frameRun E S a b h2

/-! ## Destruction -/

theorem release_teardown (S : DXGISwapChain) (m : Member) :
    (S.release m).isTeardown = decide (m = Member.m_orig) := by
  cases m <;> rfl

theorem releases_teardown (S : DXGISwapChain) (memberOrder : List Member)
    (hMembers : memberOrder.Perm [Member.m_factory, Member.m_device, Member.m_orig]) :
    (memberOrder.reverse.map S.release).filter Event.isTeardown =
      [Event.ComPtr_Release Member.m_orig S.m_orig] := by
  have hfun : (Event.isTeardown ∘ S.release) = fun m => decide (m = Member.m_orig) := by
    funext m
    exact release_teardown S m
  have hperm : (memberOrder.reverse.filter fun m => decide (m = Member.m_orig)).Perm
      [Member.m_orig] :=
    ((List.reverse_perm memberOrder).trans hMembers).filter _
  rw [List.filter_map, hfun, List.perm_singleton.mp hperm]
  rfl

theorem dtor_trace (memberOrder : List Member) (S : DXGISwapChain) (h : List Event) :
    (DXGISwapChain.dtor memberOrder S h).2 =
      [Event.ImGui_ImplDX11_Shutdown, Event.ImGui_ImplWin32_Shutdown,
        Event.ImGui_DestroyContext] ++ memberOrder.reverse.map S.release := by
  simp only [DXGISwapChain.dtor, Run.bind_apply, Run.emit_apply]
  rfl

/-- C8: for every swapchain proxy and every sequence of `Present` calls made
on it before destruction (the empty one included), and whatever order the
class declares its three `ComPtr` members in: over the whole life of the
proxy the render-backend shutdown, the platform shutdown and the release of
the reference to the original swapchain each happen exactly once, in this
order; they are part of the destructor's trace, which is the last part of
the life. -/
theorem destruction_order (E : Env) (memberOrder : List Member) (swapChain : Ptr)
    (factory : DXGIFactory) (device desc : Ptr) (calls : List (UINT × UINT)) (h : List Event)
    (hMembers : memberOrder.Perm [Member.m_factory, Member.m_device, Member.m_orig]) :
    (lifetime E memberOrder swapChain factory device desc calls h).2.filter Event.isTeardown =
      [Event.ImGui_ImplDX11_Shutdown, Event.ImGui_ImplWin32_Shutdown,
        Event.ComPtr_Release Member.m_orig swapChain]
    ∧ (∃ before : List Event,
        (lifetime E memberOrder swapChain factory device desc calls h).2 =
          before ++ (DXGISwapChain.dtor memberOrder ⟨factory, device, swapChain⟩
            (h ++ before)).2
        ∧ before.filter Event.isTeardown = [])
    ∧ (∀ (S : DXGISwapChain) (h2 : List Event),
        (DXGISwapChain.dtor memberOrder S h2).2.filter Event.isTeardown =
          [Event.ImGui_ImplDX11_Shutdown, Event.ImGui_ImplWin32_Shutdown,
            Event.ComPtr_Release Member.m_orig S.m_orig]) := by
  have hdtor : ∀ (S : DXGISwapChain) (h2 : List Event),
      (DXGISwapChain.dtor memberOrder S h2).2.filter Event.isTeardown =
        [Event.ImGui_ImplDX11_Shutdown, Event.ImGui_ImplWin32_Shutdown,
          Event.ComPtr_Release Member.m_orig S.m_orig] := by
    intro S h2
    rw [dtor_trace, List.filter_append, releases_teardown S memberOrder hMembers]
    rfl
  have hrun : (lifetime E memberOrder swapChain factory device desc calls h).2 =
      ((DXGISwapChain.ctor E swapChain factory device desc h).2 ++
        (presentCalls E ⟨factory, device, swapChain⟩ calls
          (h ++ (DXGISwapChain.ctor E swapChain factory device desc h).2)).2) ++
      (DXGISwapChain.dtor memberOrder ⟨factory, device, swapChain⟩
        (h ++ ((DXGISwapChain.ctor E swapChain factory device desc h).2 ++
          (presentCalls E ⟨factory, device, swapChain⟩ calls
            (h ++ (DXGISwapChain.ctor E swapChain factory device desc h).2)).2))).2 := by
    simp only [lifetime, Run.bind_apply, Run.pure_apply, ctor_value, List.append_nil,
      List.append_assoc]
  have hbefore : ((DXGISwapChain.ctor E swapChain factory device desc h).2 ++
        (presentCalls E ⟨factory, device, swapChain⟩ calls
          (h ++ (DXGISwapChain.ctor E swapChain factory device desc h).2)).2).filter
        Event.isTeardown = [] := by
    rw [List.filter_append, ctor_teardown, presentCalls_teardown]
    rfl
  refine ⟨?_, ⟨_, hrun, hbefore⟩, hdtor⟩
  rw [hrun, List.filter_append, hbefore, hdtor]
  rfl

theorem destruction_order_witness :
    (lifetime (plainEnv 5 (S_OK, 90) E_FAIL) [Member.m_factory, Member.m_device, Member.m_orig]
        200 sampleFactory 10 20 [(1, 0), (0, 0)] []).2.filter Event.isTeardown =
      [Event.ImGui_ImplDX11_Shutdown, Event.ImGui_ImplWin32_Shutdown,
        Event.ComPtr_Release Member.m_orig 200] :=
  (destruction_order (plainEnv 5 (S_OK, 90) E_FAIL)
    [Member.m_factory, Member.m_device, Member.m_orig] 200 sampleFactory 10 20
    [(1, 0), (0, 0)] [] (List.Perm.refl _)).1

end WrappedDXGI
